import Mathlib

/-!
Verification of the HighwayHalo geofencing + speed-estimation engine.

The repository's logic lives in `src/frontend/src/App.jsx`, which contains two
variants of the frontend:

* variant 1: `calculateDistance` (haversine) and `checkProximity`, a loop that
  alerts on the first point within 100 m and `break`s;
* variant 2: the same `calculateDistance`, `checkProximityAndSpeed`, a scan
  that keeps the nearest point within 10 m (strict improvement, so the first
  of two equidistant points wins) and then emits either a speed alert or a
  proximity alert, and an inline speed estimator in the geolocation callback
  (`userSpeed = (distance / timeDiff) * 3.6` guarded only by the existence of
  `lastPosition`, followed unconditionally by `setLastPosition`).

JavaScript numbers are modelled by real numbers; the one place where the
IEEE-754 special values matter — division by a zero time difference in the
speed estimator — is modelled explicitly by `JSNum` / `jsDiv`, which mirror
the JavaScript rules `x / 0 = Infinity` for `x > 0`, `-Infinity` for `x < 0`
and `NaN` for `x = 0`.
-/

open Classical

/-- A campus point of interest, as served by the backend
(`backend/models/CampusPoint.js`: name, type, lat, lng). -/
structure Point where
  name : String
  type : String
  lat : ℝ
  lng : ℝ

/-- JavaScript `Math.atan2 y x`: the argument of the complex number `x + y*I`
(range `(-π, π]`, `atan2 0 0 = 0`), which is exactly `Complex.arg`. -/
noncomputable def atan2 (y x : ℝ) : ℝ := Complex.arg ⟨x, y⟩

/-- `calculateDistance` from `App.jsx` (both variants, lines 19-29 and
246-257): haversine distance on a sphere of radius 6371000 m. -/
noncomputable def calculateDistance (lat1 lon1 lat2 lon2 : ℝ) : ℝ :=
  let R : ℝ := 6371000
  let dLat : ℝ := (lat2 - lat1) * Real.pi / 180
  let dLon : ℝ := (lon2 - lon1) * Real.pi / 180
  let a : ℝ :=
    Real.sin (dLat / 2) * Real.sin (dLat / 2) +
      Real.cos (lat1 * Real.pi / 180) * Real.cos (lat2 * Real.pi / 180) *
        (Real.sin (dLon / 2) * Real.sin (dLon / 2))
  let c : ℝ := 2 * atan2 (Real.sqrt a) (Real.sqrt (1 - a))
  R * c

/-- Distance from a user position to a point, `calculateDistance(userLat,
userLng, point.lat, point.lng)` as called in both proximity checks. -/
noncomputable def distTo (userLat userLng : ℝ) (p : Point) : ℝ :=
  calculateDistance userLat userLng p.lat p.lng

/-- JavaScript `Math.round`: round half up, `⌊x + 1/2⌋`. -/
noncomputable def jsRound (x : ℝ) : ℤ := ⌊x + 1 / 2⌋

lemma atan2_nonneg {y x : ℝ} (hy : 0 ≤ y) : 0 ≤ atan2 y x :=
  Complex.arg_nonneg_iff.2 hy

lemma atan2_zero_of_nonneg {x : ℝ} (hx : 0 ≤ x) : atan2 0 x = 0 := by
  have h : (⟨x, 0⟩ : ℂ) = (x : ℂ) := by
    apply Complex.ext <;> simp
  rw [atan2, h, Complex.arg_ofReal_of_nonneg hx]

lemma calculateDistance_nonneg (lat1 lon1 lat2 lon2 : ℝ) :
    0 ≤ calculateDistance lat1 lon1 lat2 lon2 := by
  have h : ∀ a : ℝ, 0 ≤ 2 * atan2 (Real.sqrt a) (Real.sqrt (1 - a)) := fun a =>
    mul_nonneg (by norm_num) (atan2_nonneg (Real.sqrt_nonneg a))
  simp only [calculateDistance]
  exact mul_nonneg (by norm_num) (h _)

lemma calculateDistance_symm (lat1 lon1 lat2 lon2 : ℝ) :
    calculateDistance lat1 lon1 lat2 lon2 = calculateDistance lat2 lon2 lat1 lon1 := by
  simp only [calculateDistance]
  have h1 : (lat1 - lat2) * Real.pi / 180 / 2 = -((lat2 - lat1) * Real.pi / 180 / 2) := by
    ring
  have h2 : (lon1 - lon2) * Real.pi / 180 / 2 = -((lon2 - lon1) * Real.pi / 180 / 2) := by
    ring
  have ha :
      Real.sin ((lat1 - lat2) * Real.pi / 180 / 2) *
          Real.sin ((lat1 - lat2) * Real.pi / 180 / 2) +
        Real.cos (lat2 * Real.pi / 180) * Real.cos (lat1 * Real.pi / 180) *
          (Real.sin ((lon1 - lon2) * Real.pi / 180 / 2) *
            Real.sin ((lon1 - lon2) * Real.pi / 180 / 2)) =
      Real.sin ((lat2 - lat1) * Real.pi / 180 / 2) *
          Real.sin ((lat2 - lat1) * Real.pi / 180 / 2) +
        Real.cos (lat1 * Real.pi / 180) * Real.cos (lat2 * Real.pi / 180) *
          (Real.sin ((lon2 - lon1) * Real.pi / 180 / 2) *
            Real.sin ((lon2 - lon1) * Real.pi / 180 / 2)) := by
    rw [h1, h2, Real.sin_neg, Real.sin_neg]
    ring
  rw [ha]

lemma calculateDistance_self (lat lon : ℝ) :
    calculateDistance lat lon lat lon = 0 := by
  unfold calculateDistance
  simp [atan2_zero_of_nonneg]

/-! ## Speed estimator (variant 2, geolocation callback, App.jsx lines 304-317)

The callback computes `userSpeed = (distance / timeDiff) * 3.6` whenever a
`lastPosition` exists — with no guard on `timeDiff` — and then runs
`setLastPosition({...newLocation, time: Date.now()})` unconditionally. -/

/-- A JavaScript number restricted to the values the estimator can produce:
a finite real, `Infinity`, `-Infinity` or `NaN`. -/
inductive JSNum where
  | fin (v : ℝ)
  | posInf
  | negInf
  | nan

/-- JavaScript division: `a / b` is finite for `b ≠ 0`, and for `b = 0` it is
`Infinity`, `-Infinity` or `NaN` according to the sign of `a`. -/
noncomputable def jsDiv (a b : ℝ) : JSNum :=
  if b ≠ 0 then .fin (a / b)
  else if a > 0 then .posInf
  else if a < 0 then .negInf
  else .nan

/-- Multiplication of a JavaScript number by a positive finite constant
(here 3.6): infinities and `NaN` are preserved. -/
def jsScale (c : ℝ) : JSNum → JSNum
  | .fin v => .fin (v * c)
  | .posInf => .posInf
  | .negInf => .negInf
  | .nan => .nan

/-- JavaScript `x >= 0`: false for `NaN` and `-Infinity`, true for
`Infinity`. -/
def JSNum.geZero : JSNum → Prop
  | .fin v => 0 ≤ v
  | .posInf => True
  | .negInf => False
  | .nan => False

/-- The `lastPosition` state: `{...newLocation, time: Date.now()}`. -/
structure LastPosition where
  lat : ℝ
  lng : ℝ
  time : ℝ

/-- The speed-estimation step of the geolocation callback (App.jsx lines
304-317): `userSpeed` starts at 0; if a `lastPosition` exists it becomes
`(calculateDistance(last, new) / ((now - last.time) / 1000)) * 3.6`; then
`lastPosition` is unconditionally replaced by the new location stamped with
the current time. Returns the pair (speed reported, new stored state). -/
noncomputable def speedUpdate (lastPosition : Option LastPosition)
    (newLat newLng now : ℝ) : JSNum × LastPosition :=
  let userSpeed : JSNum :=
    match lastPosition with
    | none => .fin 0
    | some last =>
        jsScale 3.6
          (jsDiv (calculateDistance last.lat last.lng newLat newLng)
            ((now - last.time) / 1000))
  (userSpeed, ⟨newLat, newLng, now⟩)

/-! ## Proximity check, variant 1 (App.jsx lines 31-43)

`checkProximity` walks the points in order and fires `onProximityAlert` for
the first point whose distance is ≤ 100 m, then `break`s; the zero-or-one
emitted alert is modelled as an `Option`. -/

/-- The object passed to `onProximityAlert` by variant 1:
`{type: point.type, name: point.name, distance: Math.round(distance)}`. -/
structure AlertInfo where
  type : String
  name : String
  distance : ℤ
deriving DecidableEq

/-- `checkProximity(userLat, userLng)` over `points` (variant 1): first
point within 100 m wins and the loop `break`s. -/
noncomputable def checkProximity (userLat userLng : ℝ) :
    List Point → Option AlertInfo
  | [] => none
  | point :: rest =>
      let distance := distTo userLat userLng point
      if distance ≤ 100 then some ⟨point.type, point.name, jsRound distance⟩
      else checkProximity userLat userLng rest

/-! ## Proximity-and-speed check, variant 2 (App.jsx lines 259-290) -/

/-- The alert emitted by `checkProximityAndSpeed`, with the interpolated
message string of the speed branch represented by its data: the speed, the
limit and the nearest point's name. -/
inductive AlertEvent where
  | speedAlert (speedKmh speedLimit : ℝ) (pointName : String) (distance : ℤ)
  | proximity (type name : String) (distance : ℤ)

/-- The distance field of an emitted alert. -/
def AlertEvent.distance : AlertEvent → ℤ
  | .speedAlert _ _ _ d => d
  | .proximity _ _ d => d

/-- The name of the point an alert is about. -/
def AlertEvent.pointName : AlertEvent → String
  | .speedAlert _ _ n _ => n
  | .proximity _ n _ => n

/-- The scanning loop of `checkProximityAndSpeed` (App.jsx lines 260-270):
`nearestPoint`/`minDistance` start at `null`/`Infinity` (the `none`
accumulator) and a point replaces them when `distance <= 10 && distance <
minDistance`; `∀ nd ∈ acc, distance < nd.2` is that strict comparison, and
is vacuously true for the `Infinity` start. -/
noncomputable def scanPoints (userLat userLng : ℝ) :
    List Point → Option (Point × ℝ) → Option (Point × ℝ)
  | [], acc => acc
  | point :: rest, acc =>
      let distance := distTo userLat userLng point
      if distance ≤ 10 ∧ ∀ nd ∈ acc, distance < nd.2 then
        scanPoints userLat userLng rest (some (point, distance))
      else
        scanPoints userLat userLng rest acc

/-- `checkProximityAndSpeed(userLat, userLng, userSpeed)` (App.jsx lines
259-290): find the nearest point within 10 m; if found, emit a speed alert
when `userSpeed > speedLimit` and a normal proximity alert otherwise. -/
noncomputable def checkProximityAndSpeed (userLat userLng userSpeed : ℝ)
    (points : List Point) (speedLimit : ℝ) : Option AlertEvent :=
  match scanPoints userLat userLng points none with
  | none => none
  | some nearestPoint =>
      if userSpeed > speedLimit then
        some (.speedAlert userSpeed speedLimit nearestPoint.1.name
          (jsRound nearestPoint.2))
      else
        some (.proximity nearestPoint.1.type nearestPoint.1.name
          (jsRound nearestPoint.2))

/-! ## Characterisation of the nearest-point scan -/

/-- Full characterisation of `scanPoints`, by induction with a generalised
accumulator: either no point of the list beats the accumulator (and every
in-range point of the list is already matched or beaten by it), or the result
is some list element `q` at its own distance, within 10 m, minimal among the
in-range points of the list, strictly closer than every in-range point listed
before it, and strictly better than the accumulator. -/
lemma scanPoints_spec (u v : ℝ) (points : List Point) (acc : Option (Point × ℝ)) :
    (scanPoints u v points acc = acc ∧
      ∀ p ∈ points, distTo u v p ≤ 10 →
        ∃ nd ∈ acc, nd.2 ≤ distTo u v p) ∨
    (∃ l1 q l2, points = l1 ++ q :: l2 ∧
      scanPoints u v points acc = some (q, distTo u v q) ∧
      distTo u v q ≤ 10 ∧
      (∀ p ∈ points, distTo u v p ≤ 10 → distTo u v q ≤ distTo u v p) ∧
      (∀ p ∈ l1, distTo u v p ≤ 10 → distTo u v q < distTo u v p) ∧
      (∀ nd ∈ acc, distTo u v q < nd.2)) := by
  induction points generalizing acc with
  | nil =>
    exact Or.inl ⟨rfl, by simp⟩
  | cons point rest ih =>
    by_cases hc : distTo u v point ≤ 10 ∧ ∀ nd ∈ acc, distTo u v point < nd.2
    · have hstep : scanPoints u v (point :: rest) acc
          = scanPoints u v rest (some (point, distTo u v point)) := by
        simp only [scanPoints]
        rw [if_pos hc]
      rcases ih (some (point, distTo u v point)) with
        ⟨heq, hall⟩ | ⟨l1, q, l2, hsplit, hres, hq10, hmin, hstrict, hacc⟩
      · refine Or.inr ⟨[], point, rest, rfl, ?_, hc.1, ?_, by simp, ?_⟩
        · rw [hstep, heq]
        · intro p hp hp10
          rcases List.mem_cons.1 hp with rfl | hp
          · exact le_refl _
          · obtain ⟨nd, hnd, hle⟩ := hall p hp hp10
            simp only [Option.mem_def, Option.some.injEq] at hnd
            subst hnd
            exact hle
        · exact hc.2
      · have hqpt : distTo u v q < distTo u v point := by
          have := hacc (point, distTo u v point) (by simp)
          simpa using this
        refine Or.inr ⟨point :: l1, q, l2, by rw [hsplit, List.cons_append], ?_, hq10, ?_, ?_, ?_⟩
        · rw [hstep, hres]
        · intro p hp hp10
          rcases List.mem_cons.1 hp with rfl | hp
          · exact le_of_lt hqpt
          · exact hmin p (hsplit ▸ hp) hp10
        · intro p hp hp10
          rcases List.mem_cons.1 hp with rfl | hp
          · exact hqpt
          · exact hstrict p hp hp10
        · intro nd hnd
          exact lt_trans hqpt (hc.2 nd hnd)
    · have hstep : scanPoints u v (point :: rest) acc
          = scanPoints u v rest acc := by
        simp only [scanPoints]
        rw [if_neg hc]
      have hbeaten : distTo u v point ≤ 10 → ∃ nd ∈ acc, nd.2 ≤ distTo u v point := by
        intro h10
        push_neg at hc
        obtain ⟨nd, hnd, hle⟩ := hc h10
        exact ⟨nd, hnd, hle⟩
      rcases ih acc with
        ⟨heq, hall⟩ | ⟨l1, q, l2, hsplit, hres, hq10, hmin, hstrict, hacc⟩
      · refine Or.inl ⟨by rw [hstep, heq], ?_⟩
        intro p hp hp10
        rcases List.mem_cons.1 hp with rfl | hp
        · exact hbeaten hp10
        · exact hall p hp hp10
      · have hqpt : distTo u v point ≤ 10 → distTo u v q < distTo u v point := by
          intro h10
          obtain ⟨nd, hnd, hle⟩ := hbeaten h10
          exact lt_of_lt_of_le (hacc nd hnd) hle
        refine Or.inr ⟨point :: l1, q, l2, by rw [hsplit, List.cons_append], ?_, hq10, ?_, ?_, hacc⟩
        · rw [hstep, hres]
        · intro p hp hp10
          rcases List.mem_cons.1 hp with rfl | hp
          · exact le_of_lt (hqpt hp10)
          · exact hmin p (hsplit ▸ hp) hp10
        · intro p hp hp10
          rcases List.mem_cons.1 hp with rfl | hp
          · exact hqpt hp10
          · exact hstrict p hp hp10

/-- Starting from the `null`/`Infinity` accumulator, a successful scan
returns a list element together with its own distance, which is within
10 m. -/
lemma scanPoints_some (u v : ℝ) (points : List Point) (q : Point) (d : ℝ)
    (h : scanPoints u v points none = some (q, d)) :
    q ∈ points ∧ d = distTo u v q ∧ d ≤ 10 := by
  rcases scanPoints_spec u v points none with ⟨heq, _⟩ | ⟨l1, q', l2, hsplit, hres, hq10, _, _, _⟩
  · rw [heq] at h
    exact absurd h (by simp)
  · have h2 : (q', distTo u v q') = (q, d) := Option.some.inj (hres.symm.trans h)
    have hq : q' = q := congrArg Prod.fst h2
    have hd : distTo u v q' = d := congrArg Prod.snd h2
    subst hq
    refine ⟨?_, hd.symm, hd ▸ hq10⟩
    rw [hsplit]
    simp

/-- Rounding keeps the radius bound: `Math.round x ≤ n` whenever `x ≤ n`. -/
lemma jsRound_le {x : ℝ} {n : ℤ} (h : x ≤ (n : ℝ)) : jsRound x ≤ n := by
  rw [jsRound]
  have h3 : ⌊x + 1 / 2⌋ < n + 1 := Int.floor_lt.2 (by push_cast; linarith)
  exact Int.lt_add_one_iff.mp h3

/-- A successful variant-1 check alerts some in-range point with its own
type, name and rounded distance. -/
lemma checkProximity_some (userLat userLng : ℝ) (points : List Point)
    (a : AlertInfo) (h : checkProximity userLat userLng points = some a) :
    ∃ q ∈ points, distTo userLat userLng q ≤ 100 ∧
      a = ⟨q.type, q.name, jsRound (distTo userLat userLng q)⟩ := by
  induction points with
  | nil => exact absurd h (by simp [checkProximity])
  | cons p rest ih =>
    simp only [checkProximity] at h
    by_cases hp : distTo userLat userLng p ≤ 100
    · rw [if_pos hp] at h
      exact ⟨p, by simp, hp, (Option.some.inj h).symm⟩
    · rw [if_neg hp] at h
      obtain ⟨q, hq, hq100, ha⟩ := ih h
      exact ⟨q, by simp [hq], hq100, ha⟩

/-- The antipodal evaluation used as a concrete input: from latitude -90 to
latitude 90 the haversine value is `a = 1`, so the distance is `R * π`. -/
lemma calculateDistance_poles : calculateDistance (-90) 0 90 0 = 6371000 * Real.pi := by
  simp only [calculateDistance]
  have e1 : ((90 : ℝ) - -90) * Real.pi / 180 / 2 = Real.pi / 2 := by ring
  have e2 : ((0 : ℝ) - 0) * Real.pi / 180 / 2 = 0 := by ring
  rw [e1, e2, Real.sin_pi_div_two, Real.sin_zero]
  have e3 : (1 : ℝ) * 1 +
      Real.cos (-90 * Real.pi / 180) * Real.cos (90 * Real.pi / 180) * (0 * 0) = 1 := by
    ring
  rw [e3]
  have e4 : atan2 (Real.sqrt 1) (Real.sqrt (1 - 1)) = Real.pi / 2 := by
    have h0 : (1 : ℝ) - 1 = 0 := by norm_num
    rw [h0, Real.sqrt_one, Real.sqrt_zero]
    have hI : (⟨0, 1⟩ : ℂ) = Complex.I := by
      apply Complex.ext <;> simp
    rw [atan2, hI, Complex.arg_I]
  rw [e4]
  ring

/-! ## Claim theorems -/

/-- C7: for all coordinates, `calculateDistance` is non-negative, symmetric
in its two coordinate pairs, and zero on a pair of identical coordinates. -/
theorem calculateDistance_props (lat1 lon1 lat2 lon2 : ℝ) :
    0 ≤ calculateDistance lat1 lon1 lat2 lon2 ∧
    calculateDistance lat1 lon1 lat2 lon2 = calculateDistance lat2 lon2 lat1 lon1 ∧
    calculateDistance lat1 lon1 lat1 lon1 = 0 :=
  ⟨calculateDistance_nonneg lat1 lon1 lat2 lon2,
    calculateDistance_symm lat1 lon1 lat2 lon2,
    calculateDistance_self lat1 lon1⟩

/-- C4: on the very first fix (`lastPosition` is `null`) the estimator
reports exactly the finite speed 0 — no division happens at all — and stores
the fix as the new `lastPosition`. -/
theorem speedUpdate_first_fix (newLat newLng now : ℝ) :
    speedUpdate none newLat newLng now = (JSNum.fin 0, ⟨newLat, newLng, now⟩) :=
  rfl

/-- C8: on every call, whatever branch computed the speed, the stored
`lastPosition` becomes the incoming fix stamped with the current time. -/
theorem speedUpdate_stores_fix (lastPosition : Option LastPosition)
    (newLat newLng now : ℝ) :
    (speedUpdate lastPosition newLat newLng now).2 = ⟨newLat, newLng, now⟩ :=
  rfl

/-- C3 (failing input): with a previous fix at the pole `(-90, 0)` and a new
fix `(90, 0)` carrying the identical timestamp, `timeDiff` is 0 and the code
computes `(distance / 0) * 3.6 = Infinity`, not the 0 the spec requires; the
`lastPosition` state is still updated. -/
theorem speedUpdate_duplicate_timestamp :
    (speedUpdate (some ⟨-90, 0, 0⟩) 90 0 0).1 = JSNum.posInf ∧
    (speedUpdate (some ⟨-90, 0, 0⟩) 90 0 0).2 = ⟨90, 0, 0⟩ := by
  constructor
  · simp only [speedUpdate, calculateDistance_poles]
    have ht : ((0 : ℝ) - 0) / 1000 = 0 := by norm_num
    rw [ht, jsDiv]
    have hpos : (0 : ℝ) < 6371000 * Real.pi := by positivity
    rw [if_neg (by simp), if_pos hpos]
    rfl
  · rfl

/-- C5 (failing input): two fixes at the same coordinate with the same
timestamp give `0 / 0 = NaN`, and `NaN >= 0` is false in JavaScript, so the
produced speed is not ≥ 0. -/
theorem speedUpdate_duplicate_fix_nan :
    (speedUpdate (some ⟨0, 0, 0⟩) 0 0 0).1 = JSNum.nan ∧
    ¬ JSNum.geZero (speedUpdate (some ⟨0, 0, 0⟩) 0 0 0).1 := by
  have h : (speedUpdate (some ⟨0, 0, 0⟩) 0 0 0).1 = JSNum.nan := by
    simp only [speedUpdate, calculateDistance_self]
    have ht : ((0 : ℝ) - 0) / 1000 = 0 := by norm_num
    rw [ht, jsDiv]
    rw [if_neg (by simp), if_neg (by norm_num), if_neg (by norm_num)]
    rfl
  exact ⟨h, by rw [h]; exact fun hf => hf⟩

/-- C6: with an empty points list neither proximity evaluation produces an
alert, for any fix, speed and speed limit. -/
theorem evaluate_empty_points (userLat userLng userSpeed speedLimit : ℝ) :
    checkProximityAndSpeed userLat userLng userSpeed [] speedLimit = none ∧
    checkProximity userLat userLng [] = none :=
  ⟨rfl, rfl⟩

/-- C1: whenever some point is within the 10 m radius, the scan of
`checkProximityAndSpeed` returns a point of the list at its own distance,
within the radius, of minimum distance among all in-range points, and —
tie-break — every in-range point listed before it is strictly farther, so
the first of two equidistant in-range points is the one selected. -/
theorem scanPoints_selects_nearest (userLat userLng : ℝ) (points : List Point)
    (h : ∃ p ∈ points, distTo userLat userLng p ≤ 10) :
    ∃ l1 q l2, points = l1 ++ q :: l2 ∧
      scanPoints userLat userLng points none = some (q, distTo userLat userLng q) ∧
      distTo userLat userLng q ≤ 10 ∧
      (∀ p ∈ points, distTo userLat userLng p ≤ 10 →
        distTo userLat userLng q ≤ distTo userLat userLng p) ∧
      (∀ p ∈ l1, distTo userLat userLng p ≤ 10 →
        distTo userLat userLng q < distTo userLat userLng p) := by
  rcases scanPoints_spec userLat userLng points none with
    ⟨_, hall⟩ | ⟨l1, q, l2, hsplit, hres, hq10, hmin, hstrict, _⟩
  · obtain ⟨p, hp, hp10⟩ := h
    obtain ⟨nd, hnd, _⟩ := hall p hp hp10
    exact absurd hnd (by simp)
  · exact ⟨l1, q, l2, hsplit, hres, hq10, hmin, hstrict⟩

/-- Concrete evaluation: the distance from the fix `(1, 2)` to a point at
the same coordinate is 0. -/
lemma distTo_self_gate : distTo 1 2 (Point.mk "Gate" "CCTV" 1 2) = 0 :=
  calculateDistance_self 1 2

/-- Concrete evaluation: scanning the one-point list whose point sits at the
fix selects that point at distance 0. -/
lemma scanPoints_gate :
    scanPoints 1 2 [Point.mk "Gate" "CCTV" 1 2] none =
      some (Point.mk "Gate" "CCTV" 1 2, distTo 1 2 (Point.mk "Gate" "CCTV" 1 2)) := by
  simp only [scanPoints]
  rw [if_pos ⟨by rw [distTo_self_gate]; norm_num, by simp⟩]

/-- Concrete evaluation: `Math.round 0 = 0`. -/
lemma jsRound_zero : jsRound 0 = 0 := by
  have h : (0 : ℝ) + 1 / 2 = 1 / 2 := by norm_num
  rw [jsRound, h, Int.floor_eq_zero_iff]
  constructor <;> norm_num

/-- Witness for C1 at a concrete input: a single point placed exactly at the
fix is within the radius and is selected. -/
theorem scanPoints_selects_nearest_witness :
    (∃ p ∈ [Point.mk "Gate" "CCTV" 1 2], distTo 1 2 p ≤ 10) ∧
    (∃ l1 q l2, [Point.mk "Gate" "CCTV" 1 2] = l1 ++ q :: l2 ∧
      scanPoints 1 2 [Point.mk "Gate" "CCTV" 1 2] none = some (q, distTo 1 2 q) ∧
      distTo 1 2 q ≤ 10 ∧
      (∀ p ∈ [Point.mk "Gate" "CCTV" 1 2], distTo 1 2 p ≤ 10 →
        distTo 1 2 q ≤ distTo 1 2 p) ∧
      (∀ p ∈ l1, distTo 1 2 p ≤ 10 → distTo 1 2 q < distTo 1 2 p)) :=
  ⟨⟨Point.mk "Gate" "CCTV" 1 2, by simp, by rw [distTo_self_gate]; norm_num⟩,
    scanPoints_selects_nearest 1 2 [Point.mk "Gate" "CCTV" 1 2]
      ⟨Point.mk "Gate" "CCTV" 1 2, by simp, by rw [distTo_self_gate]; norm_num⟩⟩

/-- C2: when the scan has selected a point, exactly one alert is emitted —
the single `some` value — and it is the speed alert precisely when
`userSpeed > speedLimit`, otherwise the proximity alert carrying the
selected point's name and its rounded distance; the two kinds are distinct
constructors, so both are never emitted for one fix. -/
theorem checkProximityAndSpeed_one_alert (userLat userLng userSpeed speedLimit : ℝ)
    (points : List Point) (q : Point) (d : ℝ)
    (h : scanPoints userLat userLng points none = some (q, d)) :
    checkProximityAndSpeed userLat userLng userSpeed points speedLimit =
      some (if userSpeed > speedLimit then
              AlertEvent.speedAlert userSpeed speedLimit q.name (jsRound d)
            else
              AlertEvent.proximity q.type q.name (jsRound d)) := by
  simp only [checkProximityAndSpeed, h]
  by_cases hs : userSpeed > speedLimit
  · rw [if_pos hs, if_pos hs]
  · rw [if_neg hs, if_neg hs]

/-- Witness for C2 at a concrete input: speed 12 over limit 5 near a point
at the fix yields the speed alert. -/
theorem checkProximityAndSpeed_one_alert_witness :
    checkProximityAndSpeed 1 2 12 [Point.mk "Gate" "CCTV" 1 2] 5 =
      some (AlertEvent.speedAlert 12 5 "Gate" 0) := by
  have h := checkProximityAndSpeed_one_alert 1 2 12 5 [Point.mk "Gate" "CCTV" 1 2]
    (Point.mk "Gate" "CCTV" 1 2) (distTo 1 2 (Point.mk "Gate" "CCTV" 1 2))
    scanPoints_gate
  rw [h, if_pos (by norm_num : (12 : ℝ) > 5), distTo_self_gate, jsRound_zero]

/-- C9: variant 1 alerts the first listed point within 100 m and stops:
whatever points follow it — in particular strictly closer ones — the alert
is for that first in-range point, with its rounded distance. -/
theorem checkProximity_first_match (userLat userLng : ℝ) (l1 : List Point)
    (p : Point) (l2 : List Point)
    (h1 : ∀ q ∈ l1, ¬ distTo userLat userLng q ≤ 100)
    (h2 : distTo userLat userLng p ≤ 100) :
    checkProximity userLat userLng (l1 ++ p :: l2) =
      some ⟨p.type, p.name, jsRound (distTo userLat userLng p)⟩ := by
  induction l1 with
  | nil =>
    simp only [List.nil_append, checkProximity]
    rw [if_pos h2]
  | cons q rest ih =>
    simp only [List.cons_append, checkProximity]
    rw [if_neg (h1 q (by simp))]
    exact ih fun r hr => h1 r (by simp [hr])

/-- Witness for C9 at a concrete input: a first point at the fix is alerted
even though another point at the same distance follows it. -/
theorem checkProximity_first_match_witness :
    checkProximity 1 2
      ([] ++ Point.mk "Gate" "CCTV" 1 2 :: [Point.mk "Later" "CCTV" 1 2]) =
      some ⟨"CCTV", "Gate", 0⟩ := by
  have h := checkProximity_first_match 1 2 [] (Point.mk "Gate" "CCTV" 1 2)
    [Point.mk "Later" "CCTV" 1 2] (by simp)
    (by rw [distTo_self_gate]; norm_num)
  rw [h, distTo_self_gate, jsRound_zero]

/-- C10: every emitted alert, in either variant, is about a point of the
list, carries that point's distance rounded to the nearest integer, and the
rounded value never exceeds the radius of the check — 10 for
`checkProximityAndSpeed`, 100 for `checkProximity`. -/
theorem alert_distance_rounded (userLat userLng userSpeed speedLimit : ℝ)
    (points : List Point) :
    (∀ a, checkProximityAndSpeed userLat userLng userSpeed points speedLimit = some a →
      ∃ q ∈ points, AlertEvent.pointName a = q.name ∧
        AlertEvent.distance a = jsRound (distTo userLat userLng q) ∧
        AlertEvent.distance a ≤ 10) ∧
    (∀ a : AlertInfo, checkProximity userLat userLng points = some a →
      ∃ q ∈ points, a.name = q.name ∧
        a.distance = jsRound (distTo userLat userLng q) ∧ a.distance ≤ 100) := by
  constructor
  · intro a ha
    cases hscan : scanPoints userLat userLng points none with
    | none =>
      simp only [checkProximityAndSpeed, hscan] at ha
      exact absurd ha (by simp)
    | some nd =>
      obtain ⟨hqmem, hd, hd10⟩ :=
        scanPoints_some userLat userLng points nd.1 nd.2 (by rw [hscan])
      simp only [checkProximityAndSpeed, hscan] at ha
      by_cases hs : userSpeed > speedLimit
      · rw [if_pos hs] at ha
        obtain rfl := Option.some.inj ha
        refine ⟨nd.1, hqmem, rfl, ?_, ?_⟩
        · simp only [AlertEvent.distance]
          rw [hd]
        · simp only [AlertEvent.distance]
          exact jsRound_le (by push_cast; linarith)
      · rw [if_neg hs] at ha
        obtain rfl := Option.some.inj ha
        refine ⟨nd.1, hqmem, rfl, ?_, ?_⟩
        · simp only [AlertEvent.distance]
          rw [hd]
        · simp only [AlertEvent.distance]
          exact jsRound_le (by push_cast; linarith)
  · intro a ha
    obtain ⟨q, hq, hq100, rfl⟩ := checkProximity_some userLat userLng points a ha
    exact ⟨q, hq, rfl, rfl, jsRound_le (by push_cast; linarith)⟩

/-- Witness for C10 at a concrete input: the proximity alert for a point at
the fix carries rounded distance 0, within the 10 m radius. -/
theorem alert_distance_rounded_witness :
    ∃ q ∈ [Point.mk "Gate" "CCTV" 1 2],
      AlertEvent.pointName (AlertEvent.proximity "CCTV" "Gate" 0) = q.name ∧
      AlertEvent.distance (AlertEvent.proximity "CCTV" "Gate" 0) =
        jsRound (distTo 1 2 q) ∧
      AlertEvent.distance (AlertEvent.proximity "CCTV" "Gate" 0) ≤ 10 :=
  (alert_distance_rounded 1 2 3 5 [Point.mk "Gate" "CCTV" 1 2]).1
    (AlertEvent.proximity "CCTV" "Gate" 0)
    (by
      simp only [checkProximityAndSpeed, scanPoints_gate]
      rw [if_neg (by norm_num : ¬ (3 : ℝ) > 5), distTo_self_gate, jsRound_zero])
